import Mathlib

/-!
Shallow embedding of the Global Energy Services Tracker analytics engine.

The definitions below are translated from the repository's pipeline code:
the displacement calculator (`calculate_displacement_metrics` and its
missing-previous-year handling), the efficiency coefficient resolver
(`get_efficiency_factor`, `calculate_efficiency_for_year` with the
configuration tables), the exergy weighting (Step 6), the rebound
application (Step 5), the three-tier calculation (Steps 4-6), and the
aggregation with its validation checks (Step 7 and `validate_data`).
All quantities are exact rationals.
-/

namespace EnergyTracker

/-- Per-year aggregate of useful energy, the input row shape of
`calculate_displacement_metrics` (fields named as the pipeline columns). -/
structure YearAgg where
  fossil_useful_ej : ℚ
  clean_useful_ej : ℚ
  total_useful_ej : ℚ
deriving DecidableEq

/-- Return record of `calculate_displacement_metrics`; `ff_growth_percent`
is `none` exactly where the code returns `None` (NaN during contraction). -/
structure DisplacementMetrics where
  displacement : ℚ
  ff_growth_percent : Option ℚ
  net_change_fossil : ℚ
  displacement_rate_percent : ℚ
  delta_fossil : ℚ
  delta_clean : ℚ
  delta_total : ℚ
deriving DecidableEq

/-- `calculate_displacement_metrics(current_year, previous_year)` from the
displacement formula document. -/
def calculate_displacement_metrics (current_year previous_year : YearAgg) :
    DisplacementMetrics :=
  let delta_fossil := current_year.fossil_useful_ej - previous_year.fossil_useful_ej
  let delta_clean := current_year.clean_useful_ej - previous_year.clean_useful_ej
  let delta_total := current_year.total_useful_ej - previous_year.total_useful_ej
  let displacement := max 0 delta_clean
  let ff_growth_pct : Option ℚ :=
    if 0 < delta_total then some (delta_fossil / delta_total * 100) else none
  let net_change := delta_fossil
  let displacement_rate : ℚ :=
    if 0 < delta_clean ∧ 0 < delta_fossil then delta_clean / delta_fossil * 100
    else if 0 < delta_clean ∧ delta_fossil ≤ 0 then 100
    else 0
  ⟨displacement, ff_growth_pct, net_change, displacement_rate,
    delta_fossil, delta_clean, delta_total⟩

/-- Optional metrics row: every field is the NaN sentinel when the previous
year is missing (first year of a series). -/
structure DisplacementMetricsOpt where
  displacement : Option ℚ
  ff_growth_percent : Option ℚ
  net_change_fossil : Option ℚ
deriving DecidableEq

/-- Missing-data handling from the displacement formula document: with no
previous-year record every metric is the NaN sentinel, otherwise the
metrics are computed from the pair of records. -/
def metrics_with_prev : Option YearAgg → YearAgg → DisplacementMetricsOpt
  | none, _ => ⟨none, none, none⟩
  | some p, c =>
    let m := calculate_displacement_metrics c p
    ⟨some m.displacement, m.ff_growth_percent, some m.net_change_fossil⟩

/-- Per-region time-series walk (the `groupby('country').diff()` semantics of
Step 8): the first row has no previous year, row `i` pairs rows `i-1`, `i`. -/
def displacement_series : List YearAgg → List DisplacementMetricsOpt
  | [] => []
  | r :: rest =>
    metrics_with_prev none r ::
      List.zipWith (fun p c => metrics_with_prev (some p) c) (r :: rest) rest

/-- The nine enumerated energy sources of the tracker. -/
inductive EnergySource
  | coal
  | oil
  | gas
  | nuclear
  | hydro
  | wind
  | solar
  | biofuels
  | geothermal
deriving DecidableEq

/-- End-use sectors of the exergy framework. -/
inductive Sector
  | electricity
  | mechanical
  | high_temp_heat
  | low_temp_heat
deriving DecidableEq

/-- Regions distinguished by the regional efficiency table; every other
region behaves like `World` (no override entries). -/
inductive Region
  | China
  | UnitedStates
  | India
  | Africa
  | Europe
  | World
deriving DecidableEq

/-- Global baseline efficiency factors (v2.0 table). -/
def EFFICIENCY_FACTORS : EnergySource → ℚ
  | .coal => 0.32
  | .oil => 0.30
  | .gas => 0.45
  | .nuclear => 0.33
  | .hydro => 0.70
  | .wind => 0.70
  | .solar => 0.70
  | .biofuels => 0.15
  | .geothermal => 0.70

/-- Base-year (1965) efficiencies for the temporal profile. -/
def EFFICIENCY_FACTORS_1965 : EnergySource → ℚ
  | .coal => 0.28
  | .oil => 0.26
  | .gas => 0.40
  | .nuclear => 0.30
  | .hydro => 0.65
  | .wind => 0.60
  | .solar => 0.50
  | .biofuels => 0.12
  | .geothermal => 0.65

/-- Annual compound improvement rates of the temporal profile. -/
def EFFICIENCY_IMPROVEMENT_RATES : EnergySource → ℚ
  | .coal => 0.005
  | .oil => 0.002
  | .gas => 0.003
  | .nuclear => 0.001
  | .hydro => 0.002
  | .wind => 0.004
  | .solar => 0.008
  | .biofuels => 0.001
  | .geothermal => 0.002

/-- Ceiling table referenced by `calculate_efficiency_for_year`. It is not
tabulated in the repository; its worked examples cap coal at 0.32 and wind
at 0.70, identifying the ceiling with the global baseline table. -/
def EFFICIENCY_FACTORS_MAX (s : EnergySource) : ℚ := EFFICIENCY_FACTORS s

/-- Reference year of the temporal profile. -/
def base_year : ℕ := 1965

/-- `calculate_efficiency_for_year(source, year)`: compound improvement from
the 1965 base, capped at the per-source maximum. -/
def calculate_efficiency_for_year (source : EnergySource) (year : ℕ) : ℚ :=
  min (EFFICIENCY_FACTORS_1965 source *
        (1 + EFFICIENCY_IMPROVEMENT_RATES source) ^ (year - base_year))
      (EFFICIENCY_FACTORS_MAX source)

/-- Sparse regional override table (`REGIONAL_EFFICIENCY_ADJUSTMENTS`). -/
def REGIONAL_EFFICIENCY_ADJUSTMENTS : Region → EnergySource → Option ℚ
  | .China, .coal => some 0.40
  | .China, .gas => some 0.46
  | .China, .solar => some 0.72
  | .UnitedStates, .gas => some 0.48
  | .UnitedStates, .nuclear => some 0.34
  | .UnitedStates, .wind => some 0.72
  | .India, .coal => some 0.28
  | .India, .biofuels => some 0.10
  | .India, .solar => some 0.68
  | .Africa, .biofuels => some 0.08
  | .Africa, .coal => some 0.29
  | .Africa, .solar => some 0.65
  | .Europe, .gas => some 0.47
  | .Europe, .wind => some 0.71
  | .Europe, .hydro => some 0.72
  | _, _ => none

/-- The pre-calculated temporal file covers every year 1965-2024; this is
the `year in EFFICIENCY_FACTORS_TEMPORAL` membership test. -/
def temporal_table_has_year (year : ℕ) : Prop := base_year ≤ year ∧ year ≤ 2024

instance (year : ℕ) : Decidable (temporal_table_has_year year) :=
  inferInstanceAs (Decidable (base_year ≤ year ∧ year ≤ 2024))

/-- `get_efficiency_factor(source, year, region)`: regional override first,
then the temporal value for the year, then the global baseline. -/
def get_efficiency_factor (source : EnergySource) (year : ℕ) (region : Region) : ℚ :=
  match REGIONAL_EFFICIENCY_ADJUSTMENTS region source with
  | some v => v
  | none =>
    if temporal_table_has_year year then calculate_efficiency_for_year source year
    else EFFICIENCY_FACTORS source

/-- Sector exergy quality factors. -/
def EXERGY_QUALITY_FACTORS : Sector → ℚ
  | .electricity => 1.0
  | .mechanical => 1.0
  | .high_temp_heat => 0.6
  | .low_temp_heat => 0.2

/-- `SOURCE_SECTOR_ALLOCATION`, with 0 for sectors absent from a source's
allocation map (absent keys contribute nothing to the Step 6 sums). -/
def SOURCE_SECTOR_ALLOCATION : EnergySource → Sector → ℚ
  | .coal, .electricity => 0.80
  | .coal, .high_temp_heat => 0.15
  | .coal, .low_temp_heat => 0.05
  | .oil, .mechanical => 0.70
  | .oil, .high_temp_heat => 0.20
  | .oil, .low_temp_heat => 0.10
  | .gas, .electricity => 0.50
  | .gas, .low_temp_heat => 0.40
  | .gas, .high_temp_heat => 0.10
  | .nuclear, .electricity => 1.0
  | .hydro, .electricity => 1.0
  | .wind, .electricity => 1.0
  | .solar, .electricity => 1.0
  | .biofuels, .low_temp_heat => 0.60
  | .biofuels, .mechanical => 0.25
  | .biofuels, .high_temp_heat => 0.15
  | .geothermal, .electricity => 0.70
  | .geothermal, .low_temp_heat => 0.30
  | _, _ => 0

/-- All sectors, the iteration order of the Step 6 sums. -/
def ALL_SECTORS : List Sector :=
  [.electricity, .mechanical, .high_temp_heat, .low_temp_heat]

/-- Step 6 weighted exergy factor of a source. -/
def weighted_exergy (source : EnergySource) : ℚ :=
  (ALL_SECTORS.map
    (fun sec => SOURCE_SECTOR_ALLOCATION source sec * EXERGY_QUALITY_FACTORS sec)).sum

/-- Sum of a source's configured sector-allocation fractions. -/
def allocation_sum (source : EnergySource) : ℚ :=
  (ALL_SECTORS.map (fun sec => SOURCE_SECTOR_ALLOCATION source sec)).sum

/-- The single error of the spec's ExergyWeighter contract. -/
inductive AllocCheckError
  | allocationError
deriving DecidableEq

/-- Modelled from the spec: the `ExergyWeighter.weighted_exergy` validation
is not present in the repository's sources (Step 6 records only the
unchecked summation); per the spec it raises `AllocationError` when the
allocation fractions of the source sum outside tolerance 1e-3, and
otherwise returns the unnormalized weighted sum. -/
def weighted_exergy_checked (source : EnergySource) : Except AllocCheckError ℚ :=
  if |allocation_sum source - 1| ≤ 1 / 1000 then Except.ok (weighted_exergy source)
  else Except.error AllocCheckError.allocationError

/-- Whether a checked exergy computation ended in `AllocationError`. -/
def is_alloc_error : Except AllocCheckError ℚ → Bool
  | .error _ => true
  | .ok _ => false

/-- `global_rebound_rate` from `config_rebound_effect.json`. -/
def global_rebound_rate : ℚ := 0.07

/-- Step 5 rebound application: useful net energy from gross useful energy,
using the global rebound rate (the only rate the pipeline reads). -/
def useful_net_of_gross (useful_gross : ℚ) : ℚ :=
  useful_gross * (1 - global_rebound_rate)

/-- Region classes of the `regional_variations` block of
`config_rebound_effect.json`. -/
inductive RegionClass
  | developed
  | developing
deriving DecidableEq

/-- The configured `regional_variations` rebound rates. -/
def regional_rebound_variations : RegionClass → Option ℚ
  | .developed => some 0.05
  | .developing => some 0.10

/-- The spec's ReboundAdjuster contract, stated for comparison with the
pipeline's Step 5: the rate is the region-class rate when configured,
else the global rate. -/
def apply_rebound_spec (useful_gross : ℚ) (rc : RegionClass) : ℚ :=
  useful_gross * (1 - (regional_rebound_variations rc).getD global_rebound_rate)

/-- Output of the three-tier calculation for one (region, year, source). -/
structure TierRecord where
  primary : ℚ
  useful : ℚ
  services : ℚ
deriving DecidableEq

/-- Steps 4-6 chained: efficiency, then rebound, then exergy weighting. -/
def compute_tiers (region : Region) (year : ℕ) (source : EnergySource)
    (primary_qty : ℚ) : TierRecord :=
  let efficiency := get_efficiency_factor source year region
  let useful_gross := primary_qty * efficiency
  let useful_net := useful_net_of_gross useful_gross
  let services := useful_net * weighted_exergy source
  ⟨primary_qty, useful_net, services⟩

/-- All nine sources, the iteration order of the Step 7 sums. -/
def ALL_SOURCES : List EnergySource :=
  [.coal, .oil, .gas, .nuclear, .hydro, .wind, .solar, .biofuels, .geothermal]

/-- `FOSSIL_SOURCES`: coal, oil, gas. -/
def FOSSIL_SOURCES : List EnergySource := [.coal, .oil, .gas]

/-- `CLEAN_SOURCES`: nuclear, hydro, wind, solar, biofuels, geothermal. -/
def CLEAN_SOURCES : List EnergySource :=
  [.nuclear, .hydro, .wind, .solar, .biofuels, .geothermal]

/-- Per-(region, year) aggregate at the useful tier. -/
structure AggregateRecord where
  total_useful_ej : ℚ
  fossil_useful_ej : ℚ
  clean_useful_ej : ℚ
deriving DecidableEq

/-- Step 7 aggregation of per-source useful-net values into total and
fossil/clean sub-totals. -/
def aggregate_useful (useful_net : EnergySource → ℚ) : AggregateRecord :=
  ⟨(ALL_SOURCES.map useful_net).sum,
   (FOSSIL_SOURCES.map useful_net).sum,
   (CLEAN_SOURCES.map useful_net).sum⟩

/-- `np.isclose(a, b, rtol)` with the default absolute tolerance 1e-8. -/
def np_isclose (a b rtol : ℚ) : Prop :=
  |a - b| ≤ 1 / 100000000 + rtol * |b|

instance (a b rtol : ℚ) : Decidable (np_isclose a b rtol) :=
  inferInstanceAs (Decidable (_ ≤ _))

/-- `validate_data` Check 2: total against fossil + clean, rtol 0.01. -/
def validate_check2 (r : AggregateRecord) : Prop :=
  np_isclose r.total_useful_ej (r.fossil_useful_ej + r.clean_useful_ej) (1 / 100)

/-- `validate_data` Check 4: global EJ total scaled by 1000 against the
regional PJ sum, rtol 0.05. -/
def validate_check4 (global_ej regional_pj : ℚ) : Prop :=
  np_isclose (global_ej * 1000) regional_pj (5 / 100)

/-- C1: for consecutive aggregate records with non-positive total delta, the
displacement calculator returns the undefined sentinel for FF_growth while
still returning Displacement = max(0, Δclean) and NetChange = Δfossil. -/
theorem c1_ff_growth_undefined_on_contraction (prev curr : YearAgg)
    (h : curr.total_useful_ej - prev.total_useful_ej ≤ 0) :
    (calculate_displacement_metrics curr prev).ff_growth_percent = none ∧
    (calculate_displacement_metrics curr prev).displacement =
      max 0 (curr.clean_useful_ej - prev.clean_useful_ej) ∧
    (calculate_displacement_metrics curr prev).net_change_fossil =
      curr.fossil_useful_ej - prev.fossil_useful_ej := by
  refine ⟨?_, rfl, rfl⟩
  simp [calculate_displacement_metrics, not_lt.mpr h]

/-- C1 witness: prev total 237, curr total 230 (Δtotal = −7, Δclean = +1,
Δfossil = −8) gives Displacement = 1, FF_growth undefined, NetChange = −8. -/
theorem c1_ff_growth_undefined_on_contraction_witness :
    ((230 : ℚ) - 237 ≤ 0) ∧
    (calculate_displacement_metrics ⟨187, 43, 230⟩ ⟨195, 42, 237⟩).ff_growth_percent
      = none ∧
    (calculate_displacement_metrics ⟨187, 43, 230⟩ ⟨195, 42, 237⟩).displacement
      = max 0 ((43 : ℚ) - 42) ∧
    (calculate_displacement_metrics ⟨187, 43, 230⟩ ⟨195, 42, 237⟩).net_change_fossil
      = (187 : ℚ) - 195 :=
  ⟨by norm_num,
   c1_ff_growth_undefined_on_contraction ⟨195, 42, 237⟩ ⟨187, 43, 230⟩ (by norm_num)⟩

/-- C2: the displacement rate equals (Δclean / Δfossil) × 100 when both
deltas are positive, 100 when Δclean > 0 and Δfossil ≤ 0, and 0 otherwise
(that is, whenever Δclean ≤ 0). -/
theorem c2_displacement_rate_cases (prev curr : YearAgg) :
    (0 < (calculate_displacement_metrics curr prev).delta_clean →
      0 < (calculate_displacement_metrics curr prev).delta_fossil →
      (calculate_displacement_metrics curr prev).displacement_rate_percent =
        (calculate_displacement_metrics curr prev).delta_clean /
          (calculate_displacement_metrics curr prev).delta_fossil * 100) ∧
    (0 < (calculate_displacement_metrics curr prev).delta_clean →
      (calculate_displacement_metrics curr prev).delta_fossil ≤ 0 →
      (calculate_displacement_metrics curr prev).displacement_rate_percent = 100) ∧
    ((calculate_displacement_metrics curr prev).delta_clean ≤ 0 →
      (calculate_displacement_metrics curr prev).displacement_rate_percent = 0) := by
  refine ⟨fun h1 h2 => ?_, fun h1 h2 => ?_, fun h1 => ?_⟩
  · simp only [calculate_displacement_metrics] at h1 h2 ⊢
    rw [if_pos ⟨h1, h2⟩]
  · simp only [calculate_displacement_metrics] at h1 h2 ⊢
    rw [if_neg (fun hc => absurd hc.2 (not_lt.mpr h2)), if_pos ⟨h1, h2⟩]
  · simp only [calculate_displacement_metrics] at h1 ⊢
    rw [if_neg (fun hc => absurd hc.1 (not_lt.mpr h1)),
        if_neg (fun hc => absurd hc.1 (not_lt.mpr h1))]

/-- C2 witness: normal growth year, Δclean = 2 > 0 and Δfossil = 5 > 0,
so the rate is (2 / 5) × 100. -/
theorem c2_displacement_rate_cases_witness :
    0 < (calculate_displacement_metrics ⟨185, 37, 222⟩ ⟨180, 35, 215⟩).delta_clean ∧
    0 < (calculate_displacement_metrics ⟨185, 37, 222⟩ ⟨180, 35, 215⟩).delta_fossil ∧
    (calculate_displacement_metrics ⟨185, 37, 222⟩ ⟨180, 35, 215⟩).displacement_rate_percent =
      (calculate_displacement_metrics ⟨185, 37, 222⟩ ⟨180, 35, 215⟩).delta_clean /
        (calculate_displacement_metrics ⟨185, 37, 222⟩ ⟨180, 35, 215⟩).delta_fossil * 100 :=
  have h1 : 0 < (calculate_displacement_metrics ⟨185, 37, 222⟩ ⟨180, 35, 215⟩).delta_clean := by
    norm_num [calculate_displacement_metrics]
  have h2 : 0 < (calculate_displacement_metrics ⟨185, 37, 222⟩ ⟨180, 35, 215⟩).delta_fossil := by
    norm_num [calculate_displacement_metrics]
  ⟨h1, h2, (c2_displacement_rate_cases ⟨180, 35, 215⟩ ⟨185, 37, 222⟩).1 h1 h2⟩

/-- C9 counterexample: at an input pair whose deltas violate
Δtotal = Δfossil + Δclean by 98, far outside any rounding tolerance, the
calculator still returns a full metrics record instead of raising. -/
theorem c9_counterexample_returns_without_raising :
    (calculate_displacement_metrics ⟨1, 1, 100⟩ ⟨0, 0, 0⟩).delta_total ≠
      (calculate_displacement_metrics ⟨1, 1, 100⟩ ⟨0, 0, 0⟩).delta_fossil +
        (calculate_displacement_metrics ⟨1, 1, 100⟩ ⟨0, 0, 0⟩).delta_clean ∧
    calculate_displacement_metrics ⟨1, 1, 100⟩ ⟨0, 0, 0⟩ =
      ⟨1, some 1, 1, 100, 1, 1, 100⟩ := by
  constructor
  · norm_num [calculate_displacement_metrics]
  · norm_num [calculate_displacement_metrics]

/-- C9 amended: the calculator performs no consistency check; even when
Δtotal differs from Δfossil + Δclean it returns the metrics computed from
the raw deltas. -/
theorem c9_no_consistency_check_returns_metrics (prev curr : YearAgg)
    (_h : curr.total_useful_ej - prev.total_useful_ej ≠
        (curr.fossil_useful_ej - prev.fossil_useful_ej) +
          (curr.clean_useful_ej - prev.clean_useful_ej)) :
    (calculate_displacement_metrics curr prev).displacement =
      max 0 (curr.clean_useful_ej - prev.clean_useful_ej) ∧
    (calculate_displacement_metrics curr prev).net_change_fossil =
      curr.fossil_useful_ej - prev.fossil_useful_ej ∧
    (calculate_displacement_metrics curr prev).delta_total =
      curr.total_useful_ej - prev.total_useful_ej :=
  ⟨rfl, rfl, rfl⟩

/-- C9 amended witness: the inconsistent pair with Δtotal = 100 against
Δfossil + Δclean = 2 still yields metrics. -/
theorem c9_no_consistency_check_returns_metrics_witness :
    ((100 : ℚ) - 0 ≠ ((1 : ℚ) - 0) + ((1 : ℚ) - 0)) ∧
    ((calculate_displacement_metrics ⟨1, 1, 100⟩ ⟨0, 0, 0⟩).displacement =
        max 0 ((1 : ℚ) - 0) ∧
      (calculate_displacement_metrics ⟨1, 1, 100⟩ ⟨0, 0, 0⟩).net_change_fossil =
        (1 : ℚ) - 0 ∧
      (calculate_displacement_metrics ⟨1, 1, 100⟩ ⟨0, 0, 0⟩).delta_total =
        (100 : ℚ) - 0) :=
  ⟨by norm_num,
   c9_no_consistency_check_returns_metrics ⟨0, 0, 0⟩ ⟨1, 1, 100⟩ (by norm_num)⟩

/-- C10: the first year of any region's series has no previous record, and
every metric of that row is the undefined sentinel; this differs from
treating the missing previous year as zero consumption. -/
theorem c10_first_year_all_sentinel (r0 : YearAgg) (rest : List YearAgg) :
    (displacement_series (r0 :: rest)).head? = some ⟨none, none, none⟩ ∧
    metrics_with_prev none r0 = ⟨none, none, none⟩ ∧
    metrics_with_prev none r0 ≠ metrics_with_prev (some ⟨0, 0, 0⟩) r0 := by
  refine ⟨rfl, rfl, ?_⟩
  simp [metrics_with_prev]

lemma efficiency_factors_1965_nonneg (s : EnergySource) :
    0 ≤ EFFICIENCY_FACTORS_1965 s := by
  cases s <;> norm_num [EFFICIENCY_FACTORS_1965]

lemma efficiency_improvement_rates_nonneg (s : EnergySource) :
    0 ≤ EFFICIENCY_IMPROVEMENT_RATES s := by
  cases s <;> norm_num [EFFICIENCY_IMPROVEMENT_RATES]

lemma efficiency_factors_nonneg (s : EnergySource) : 0 ≤ EFFICIENCY_FACTORS s := by
  cases s <;> norm_num [EFFICIENCY_FACTORS]

lemma efficiency_factors_le_one (s : EnergySource) : EFFICIENCY_FACTORS s ≤ 1 := by
  cases s <;> norm_num [EFFICIENCY_FACTORS]

lemma calculate_efficiency_monotone (s : EnergySource) (y1 y2 : ℕ) (h : y1 ≤ y2) :
    calculate_efficiency_for_year s y1 ≤ calculate_efficiency_for_year s y2 := by
  unfold calculate_efficiency_for_year
  refine min_le_min (mul_le_mul_of_nonneg_left ?_ (efficiency_factors_1965_nonneg s)) le_rfl
  refine pow_le_pow_right₀ ?_ (Nat.sub_le_sub_right h base_year)
  linarith [efficiency_improvement_rates_nonneg s]

lemma calculate_efficiency_le_max (s : EnergySource) (y : ℕ) :
    calculate_efficiency_for_year s y ≤ EFFICIENCY_FACTORS_MAX s :=
  min_le_right _ _

lemma calculate_efficiency_nonneg (s : EnergySource) (y : ℕ) :
    0 ≤ calculate_efficiency_for_year s y := by
  unfold calculate_efficiency_for_year
  refine le_min (mul_nonneg (efficiency_factors_1965_nonneg s) (pow_nonneg ?_ _))
    (efficiency_factors_nonneg s)
  linarith [efficiency_improvement_rates_nonneg s]

/-- C3: a regional override wins for every year, even though a temporal
profile exists for the source; without an override the temporal value for
the year is used, and the global baseline only as last resort. -/
theorem c3_efficiency_priority (source : EnergySource) (year : ℕ) (region : Region) :
    (∀ v, REGIONAL_EFFICIENCY_ADJUSTMENTS region source = some v →
      get_efficiency_factor source year region = v) ∧
    (REGIONAL_EFFICIENCY_ADJUSTMENTS region source = none →
      (temporal_table_has_year year →
        get_efficiency_factor source year region =
          calculate_efficiency_for_year source year) ∧
      (¬ temporal_table_has_year year →
        get_efficiency_factor source year region = EFFICIENCY_FACTORS source)) := by
  unfold get_efficiency_factor
  constructor
  · intro v hv
    rw [hv]
  · intro hnone
    rw [hnone]
    exact ⟨fun ht => if_pos ht, fun ht => if_neg ht⟩

/-- C3 witness: China has a coal override of 0.40, and the resolver returns
it in year 2000 although the temporal coal profile covers that year. -/
theorem c3_efficiency_priority_witness :
    REGIONAL_EFFICIENCY_ADJUSTMENTS Region.China EnergySource.coal = some 0.40 ∧
    get_efficiency_factor EnergySource.coal 2000 Region.China = 0.40 :=
  ⟨rfl, (c3_efficiency_priority EnergySource.coal 2000 Region.China).1 0.40 rfl⟩

/-- C4: for a source with positive improvement rate and a region without an
override, the resolved efficiency is non-decreasing in the year (from the
base year on) and never exceeds the per-source ceiling; within the temporal
table it is the clamped compound-growth value. -/
theorem c4_temporal_monotone_and_capped (source : EnergySource) (region : Region)
    (_hrate : 0 < EFFICIENCY_IMPROVEMENT_RATES source)
    (hover : REGIONAL_EFFICIENCY_ADJUSTMENTS region source = none)
    (y1 y2 : ℕ) (hy1 : base_year ≤ y1) (h12 : y1 ≤ y2) :
    get_efficiency_factor source y1 region ≤ get_efficiency_factor source y2 region ∧
    get_efficiency_factor source y1 region ≤ EFFICIENCY_FACTORS_MAX source ∧
    (temporal_table_has_year y1 →
      get_efficiency_factor source y1 region =
        min (EFFICIENCY_FACTORS_1965 source *
              (1 + EFFICIENCY_IMPROVEMENT_RATES source) ^ (y1 - base_year))
            (EFFICIENCY_FACTORS_MAX source)) := by
  unfold get_efficiency_factor
  rw [hover]
  refine ⟨?_, ?_, fun ht => if_pos ht⟩
  · by_cases h1 : temporal_table_has_year y1
    · by_cases h2 : temporal_table_has_year y2
      · rw [if_pos h1, if_pos h2]
        exact calculate_efficiency_monotone source y1 y2 h12
      · rw [if_pos h1, if_neg h2]
        exact calculate_efficiency_le_max source y1
    · by_cases h2 : temporal_table_has_year y2
      · exact absurd ⟨hy1, h12.trans h2.2⟩ h1
      · rw [if_neg h1, if_neg h2]
  · by_cases h1 : temporal_table_has_year y1
    · rw [if_pos h1]
      exact calculate_efficiency_le_max source y1
    · rw [if_neg h1]
      exact le_rfl

/-- C4 witness: solar (rate 0.008 > 0) in a region with no overrides is
non-decreasing from 1970 to 1980. -/
theorem c4_temporal_monotone_and_capped_witness :
    0 < EFFICIENCY_IMPROVEMENT_RATES EnergySource.solar ∧
    REGIONAL_EFFICIENCY_ADJUSTMENTS Region.World EnergySource.solar = none ∧
    base_year ≤ 1970 ∧ (1970 : ℕ) ≤ 1980 ∧
    get_efficiency_factor EnergySource.solar 1970 Region.World ≤
      get_efficiency_factor EnergySource.solar 1980 Region.World :=
  ⟨by norm_num [EFFICIENCY_IMPROVEMENT_RATES], rfl, by norm_num [base_year], by norm_num,
   (c4_temporal_monotone_and_capped EnergySource.solar Region.World
      (by norm_num [EFFICIENCY_IMPROVEMENT_RATES]) rfl 1970 1980
      (by norm_num [base_year]) (by norm_num)).1⟩

lemma override_value_bounds (region : Region) (source : EnergySource) (v : ℚ)
    (h : REGIONAL_EFFICIENCY_ADJUSTMENTS region source = some v) : 0 ≤ v ∧ v ≤ 1 := by
  cases region <;> cases source <;> simp_all [REGIONAL_EFFICIENCY_ADJUSTMENTS] <;>
    norm_num [h.symm]

lemma get_efficiency_factor_bounds (source : EnergySource) (year : ℕ) (region : Region) :
    0 ≤ get_efficiency_factor source year region ∧
      get_efficiency_factor source year region ≤ 1 := by
  unfold get_efficiency_factor
  cases hra : REGIONAL_EFFICIENCY_ADJUSTMENTS region source with
  | some v => exact override_value_bounds region source v hra
  | none =>
    by_cases ht : temporal_table_has_year year
    · rw [if_pos ht]
      exact ⟨calculate_efficiency_nonneg source year,
        (calculate_efficiency_le_max source year).trans (efficiency_factors_le_one source)⟩
    · rw [if_neg ht]
      exact ⟨efficiency_factors_nonneg source, efficiency_factors_le_one source⟩

lemma weighted_exergy_bounds (s : EnergySource) :
    0 ≤ weighted_exergy s ∧ weighted_exergy s ≤ 1 := by
  cases s <;>
    norm_num [weighted_exergy, ALL_SECTORS, SOURCE_SECTOR_ALLOCATION, EXERGY_QUALITY_FACTORS]

/-- C5: under the configured coefficient tables (all factors in [0, 1]) the
three-tier record of any (region, year, source) with non-negative primary
quantity satisfies services ≤ useful ≤ primary, with
useful = primary × efficiency × (1 − rebound) and
services = useful × weighted exergy. -/
theorem c5_tier_bounds (region : Region) (year : ℕ) (source : EnergySource)
    (primary_qty : ℚ) (hq : 0 ≤ primary_qty) :
    (compute_tiers region year source primary_qty).services ≤
      (compute_tiers region year source primary_qty).useful ∧
    (compute_tiers region year source primary_qty).useful ≤
      (compute_tiers region year source primary_qty).primary ∧
    (compute_tiers region year source primary_qty).useful =
      primary_qty * get_efficiency_factor source year region * (1 - global_rebound_rate) ∧
    (compute_tiers region year source primary_qty).services =
      (compute_tiers region year source primary_qty).useful * weighted_exergy source := by
  obtain ⟨he0, he1⟩ := get_efficiency_factor_bounds source year region
  obtain ⟨hw0, hw1⟩ := weighted_exergy_bounds source
  have hr0 : (0 : ℚ) ≤ 1 - global_rebound_rate := by norm_num [global_rebound_rate]
  have hr1 : (1 : ℚ) - global_rebound_rate ≤ 1 := by norm_num [global_rebound_rate]
  have huseful : 0 ≤ primary_qty * get_efficiency_factor source year region *
      (1 - global_rebound_rate) := mul_nonneg (mul_nonneg hq he0) hr0
  refine ⟨?_, ?_, rfl, rfl⟩
  · show primary_qty * get_efficiency_factor source year region * (1 - global_rebound_rate) *
        weighted_exergy source ≤
      primary_qty * get_efficiency_factor source year region * (1 - global_rebound_rate)
    exact mul_le_of_le_one_right huseful hw1
  · show primary_qty * get_efficiency_factor source year region * (1 - global_rebound_rate) ≤
      primary_qty
    calc primary_qty * get_efficiency_factor source year region * (1 - global_rebound_rate)
        ≤ primary_qty * get_efficiency_factor source year region :=
          mul_le_of_le_one_right (mul_nonneg hq he0) hr1
      _ ≤ primary_qty := mul_le_of_le_one_right hq he1

/-- C5 witness: a concrete tier computation (World, 2000, solar, 100 EJ)
satisfies the bounds. -/
theorem c5_tier_bounds_witness :
    (0 : ℚ) ≤ 100 ∧
    (compute_tiers Region.World 2000 EnergySource.solar 100).services ≤
      (compute_tiers Region.World 2000 EnergySource.solar 100).useful ∧
    (compute_tiers Region.World 2000 EnergySource.solar 100).useful ≤
      (compute_tiers Region.World 2000 EnergySource.solar 100).primary :=
  have h := c5_tier_bounds Region.World 2000 EnergySource.solar 100 (by norm_num)
  ⟨by norm_num, h.1, h.2.1⟩

/-- C6 (spec-modelled check): the checked exergy weighting errors exactly
when the configured allocation fractions of the source sum outside
[1 − 1e-3, 1 + 1e-3]; within tolerance it returns the weighted sum without
renormalizing. Every configured source sums to exactly 1, so no source
errors. -/
theorem c6_allocation_closure (source : EnergySource) :
    (is_alloc_error (weighted_exergy_checked source) = true ↔
      ¬ (1 - 1 / 1000 ≤ allocation_sum source ∧ allocation_sum source ≤ 1 + 1 / 1000)) ∧
    (1 - 1 / 1000 ≤ allocation_sum source → allocation_sum source ≤ 1 + 1 / 1000 →
      weighted_exergy_checked source = Except.ok (weighted_exergy source)) := by
  have hsum : allocation_sum source = 1 := by
    cases source <;> norm_num [allocation_sum, ALL_SECTORS, SOURCE_SECTOR_ALLOCATION]
  have hok : weighted_exergy_checked source = Except.ok (weighted_exergy source) := by
    unfold weighted_exergy_checked
    rw [if_pos]
    rw [hsum]
    norm_num
  refine ⟨?_, fun _ _ => hok⟩
  rw [hok, hsum]
  norm_num [is_alloc_error]

/-- C6 witness: coal's fractions sum to 1 within tolerance and the checked
weighting returns the plain weighted sum. -/
theorem c6_allocation_closure_witness :
    (1 - 1 / 1000 ≤ allocation_sum EnergySource.coal) ∧
    (allocation_sum EnergySource.coal ≤ 1 + 1 / 1000) ∧
    weighted_exergy_checked EnergySource.coal =
      Except.ok (weighted_exergy EnergySource.coal) :=
  have h1 : 1 - 1 / 1000 ≤ allocation_sum EnergySource.coal := by
    norm_num [allocation_sum, ALL_SECTORS, SOURCE_SECTOR_ALLOCATION]
  have h2 : allocation_sum EnergySource.coal ≤ 1 + 1 / 1000 := by
    norm_num [allocation_sum, ALL_SECTORS, SOURCE_SECTOR_ALLOCATION]
  ⟨h1, h2, (c6_allocation_closure EnergySource.coal).2 h1 h2⟩

/-- C7 counterexample: the pipeline's rebound step multiplies by
(1 − 0.07) for every row, so a developing-class row with gross 100 yields
93, not the 90 the configured developing rate 0.10 would demand. -/
theorem c7_counterexample_regional_rate_ignored :
    useful_net_of_gross 100 = 93 ∧
    regional_rebound_variations RegionClass.developing = some 0.10 ∧
    apply_rebound_spec 100 RegionClass.developing = 90 ∧
    useful_net_of_gross 100 ≠ apply_rebound_spec 100 RegionClass.developing := by
  refine ⟨?_, rfl, ?_, ?_⟩ <;>
    norm_num [useful_net_of_gross, apply_rebound_spec, regional_rebound_variations,
      global_rebound_rate]

/-- C7 amended: rebound uses the global rate 0.07 for every row (the
configured regional variations are not consulted), and it is applied
exactly once, after the efficiency step and before the exergy step. -/
theorem c7_rebound_global_rate_applied_once (region : Region) (year : ℕ)
    (source : EnergySource) (primary_qty useful_gross : ℚ) :
    global_rebound_rate = 7 / 100 ∧
    useful_net_of_gross useful_gross = useful_gross * (1 - global_rebound_rate) ∧
    (compute_tiers region year source primary_qty).useful =
      useful_net_of_gross (primary_qty * get_efficiency_factor source year region) ∧
    (compute_tiers region year source primary_qty).services =
      (compute_tiers region year source primary_qty).useful * weighted_exergy source :=
  ⟨by norm_num [global_rebound_rate], rfl, rfl, rfl⟩

/-- C8: aggregation over the fossil/clean partition of the nine sources
makes total = fossil + clean exactly, hence within the 1% relative
tolerance; Check 2 accepts every aggregated record and rejects exactly the
records violating its tolerance; Check 4 compares the global EJ total
scaled by 1000 against the regional PJ sum within 5%. -/
theorem c8_aggregation_consistency (useful_net : EnergySource → ℚ) :
    (aggregate_useful useful_net).total_useful_ej =
      (aggregate_useful useful_net).fossil_useful_ej +
        (aggregate_useful useful_net).clean_useful_ej ∧
    (0 < (aggregate_useful useful_net).total_useful_ej →
      |(aggregate_useful useful_net).total_useful_ej -
          ((aggregate_useful useful_net).fossil_useful_ej +
            (aggregate_useful useful_net).clean_useful_ej)| /
        (aggregate_useful useful_net).total_useful_ej < 1 / 100) ∧
    validate_check2 (aggregate_useful useful_net) ∧
    (∀ r : AggregateRecord, ¬ validate_check2 r ↔
      ¬ |r.total_useful_ej - (r.fossil_useful_ej + r.clean_useful_ej)| ≤
          1 / 100000000 + 1 / 100 * |r.fossil_useful_ej + r.clean_useful_ej|) ∧
    (∀ g p : ℚ, validate_check4 g p ↔
      |g * 1000 - p| ≤ 1 / 100000000 + 5 / 100 * |p|) := by
  have hpart : (aggregate_useful useful_net).total_useful_ej =
      (aggregate_useful useful_net).fossil_useful_ej +
        (aggregate_useful useful_net).clean_useful_ej := by
    show (ALL_SOURCES.map useful_net).sum =
      (FOSSIL_SOURCES.map useful_net).sum + (CLEAN_SOURCES.map useful_net).sum
    simp [ALL_SOURCES, FOSSIL_SOURCES, CLEAN_SOURCES]
    ring
  refine ⟨hpart, fun hpos => ?_, ?_, fun r => Iff.rfl, fun g p => Iff.rfl⟩
  · rw [hpart, sub_self, abs_zero, zero_div]
    norm_num
  · show np_isclose (aggregate_useful useful_net).total_useful_ej
      ((aggregate_useful useful_net).fossil_useful_ej +
        (aggregate_useful useful_net).clean_useful_ej) (1 / 100)
    unfold np_isclose
    rw [hpart, sub_self, abs_zero]
    positivity

/-- C8 witness: on per-source values of 1 EJ the total is 9 EJ > 0 and the
relative discrepancy is below 1%. -/
theorem c8_aggregation_consistency_witness :
    0 < (aggregate_useful (fun _ => 1)).total_useful_ej ∧
    |(aggregate_useful (fun _ => 1)).total_useful_ej -
        ((aggregate_useful (fun _ => 1)).fossil_useful_ej +
          (aggregate_useful (fun _ => 1)).clean_useful_ej)| /
      (aggregate_useful (fun _ => 1)).total_useful_ej < 1 / 100 :=
  have hpos : 0 < (aggregate_useful (fun _ => (1 : ℚ))).total_useful_ej := by
    norm_num [aggregate_useful, ALL_SOURCES]
  ⟨hpos, (c8_aggregation_consistency (fun _ => 1)).2.1 hpos⟩

end EnergyTracker
